import Mathlib

/-!
Verification of the user-segment market-research pipeline
(`langchain_firecrawl_agent.py` and `firecrawl_pipeline.py`) against its
natural-language specification.

The Python source is shallowly embedded: each tool adapter becomes a total
Lean function over an explicit model of the provider's possible behaviours
(including a raised exception, which the Python `try`/`except` absorbs),
the module-global loop-detection window `_recent_queries` becomes explicit
state threading, and the `CreditTracker` class becomes a record with pure
update functions.  Python strings are modelled by `String` for identifiers
and by `List Char` for scraped page content (Python slicing/`len` act on
code points, exactly as `List.take`/`List.length` do here).  Wall-clock
fields (timestamps, durations) are irrelevant to every claim and are
omitted or carried as opaque numeric payloads.
-/

namespace FirecrawlAgent

/-- One web search result item as extracted by `firecrawl_search`
(url/title/description, read off the provider item). -/
structure WebItem where
  url : String
  title : String
  description : String
deriving Repr, DecidableEq

/-- Behaviour of the external search provider for one call, covering every
case the source distinguishes: the call raises; the returned object has
`success == False` (with an optional `error` attribute); it has no `data`
attribute; or it carries `data.web` (possibly empty) and an optional
`creditsUsed` attribute. -/
inductive SearchResponse where
  | raises (msg : String)
  | failure (errorMsg : Option String)
  | noData
  | results (web : List WebItem) (creditsUsed : Option Nat)
deriving Repr, DecidableEq

/-- The JSON envelope returned by `firecrawl_search` (the fields of every
`json.dumps` literal in the function). -/
structure SearchEnvelope where
  success : Bool
  query : String
  results_count : Nat
  results : List WebItem
  credits_used : Nat
  note : Option String
deriving Repr, DecidableEq

/-- Result of one `firecrawl_search` call: the updated module-global
`_recent_queries` window, the returned envelope, and whether the external
provider was actually invoked. -/
structure SearchOutcome where
  recent : List String
  envelope : SearchEnvelope
  providerInvoked : Bool
deriving Repr, DecidableEq

/-- The source constant `_max_identical_queries = 3`. -/
def maxIdenticalQueries : Nat := 3

/-- The window update at the top of `firecrawl_search`:
`_recent_queries.append(query)` followed by `pop(0)` when the list
exceeds 10 entries. -/
def pushQuery (recent : List String) (q : String) : List String :=
  let r := recent ++ [q]
  if r.length > 10 then r.drop 1 else r

/-- Embedding of `firecrawl_search` (langchain_firecrawl_agent.py, lines
110-254).  The query is recorded in the window first; if its count in the
updated window reaches `_max_identical_queries` the call short-circuits
with a synthetic zero-credit envelope and the provider is not invoked.
Otherwise the provider is invoked and its behaviour `resp` is normalized:
every failure mode is absorbed into a `success = true` envelope, mirroring
the blanket `try`/`except` of the source. -/
def firecrawl_search (recent : List String) (query : String) (limit : Nat)
    (resp : SearchResponse) : SearchOutcome :=
  let recent' := pushQuery recent query
  let identicalCount := recent'.count query
  if maxIdenticalQueries ≤ identicalCount then
    { recent := recent'
      envelope :=
        { success := true, query := query, results_count := 0, results := []
          credits_used := 0
          note := some ("Query repeated " ++ toString identicalCount ++
            " times. Try different approach.") }
      providerInvoked := false }
  else
    { recent := recent'
      envelope :=
        match resp with
        | .raises msg =>
            { success := true, query := query, results_count := 0, results := []
              credits_used := 0
              note := some ("Error: " ++ msg ++ ". Try different approach.") }
        | .failure errorMsg =>
            { success := true, query := query, results_count := 0, results := []
              credits_used := 0
              note := some ("Search failed: " ++ errorMsg.getD "Unknown error" ++
                ". Try different query.") }
        | .noData =>
            { success := true, query := query, results_count := 0, results := []
              credits_used := 0
              note := some "No data returned. Try different approach." }
        | .results web creditsUsed =>
            if web = [] then
              { success := true, query := query, results_count := 0, results := []
                credits_used := creditsUsed.getD 0
                note := some "No results found. Try different keywords." }
            else
              let simplified := web.take limit
              { success := true, query := query
                results_count := simplified.length
                results := simplified
                credits_used := creditsUsed.getD 2
                note := none }
      providerInvoked := true }

/-- Behaviour of the external scrape provider for one call: the call
raises; the returned object has `success == False` (optional `error`
attribute); or `success` is truthy with some markdown content (empty when
the `data`/`markdown` attributes are missing) and a provider-side credit
count that the source never reads. -/
inductive ScrapeResponse where
  | raises (msg : String)
  | failure (errorMsg : Option String)
  | success (markdown : List Char) (creditsUsed : Option Nat)
deriving Repr, DecidableEq

/-- The JSON envelope returned by `firecrawl_scrape`. -/
structure ScrapeEnvelope where
  success : Bool
  url : String
  content : List Char
  full_length : Nat
  credits_used : Nat
  note : Option String
deriving Repr, DecidableEq

/-- The marker the source appends when scraped content is truncated. -/
def truncationMarker : List Char := "\n\n[Content truncated for length...]".toList

/-- Embedding of `firecrawl_scrape` (langchain_firecrawl_agent.py, lines
258-349): on provider success the markdown is cut at 5000 characters with
a marker appended when it was longer, and `credits_used` is the constant 1;
every failure mode yields an empty-content, zero-credit, noted envelope
with `success = true`. -/
def firecrawl_scrape (url : String) (resp : ScrapeResponse) : ScrapeEnvelope :=
  match resp with
  | .success markdown _ =>
      let truncated :=
        if markdown.length > 5000 then markdown.take 5000 ++ truncationMarker
        else markdown.take 5000
      { success := true, url := url, content := truncated
        full_length := markdown.length, credits_used := 1, note := none }
  | .failure errorMsg =>
      { success := true, url := url, content := [], full_length := 0
        credits_used := 0
        note := some ("Scrape failed: " ++ errorMsg.getD "Scrape failed" ++
          ". Try different URL.") }
  | .raises msg =>
      { success := true, url := url, content := [], full_length := 0
        credits_used := 0
        note := some ("Error: " ++ msg ++ ". Try different URL.") }

/-- Sequential execution of a list of search calls against the single
module-global `_recent_queries` window, exactly as any interleaving of
callers of `firecrawl_search` executes within one Python process. -/
def runSearches (recent : List String)
    (calls : List (String × Nat × SearchResponse)) :
    List String × List SearchOutcome :=
  match calls with
  | [] => (recent, [])
  | (q, lim, resp) :: rest =>
      let o := firecrawl_search recent q lim resp
      let (r, os) := runSearches o.recent rest
      (r, o :: os)

end FirecrawlAgent

namespace FirecrawlPipeline

/-- One entry of `CreditTracker.operations` (firecrawl_pipeline.py, lines
111-119).  The wall-clock `timestamp` of the source dict is omitted; the
float `duration_seconds` is carried as an abstract numeric payload since
no claim depends on its arithmetic. -/
structure Operation where
  operation : String
  credits : Nat
  input_tokens : Nat
  output_tokens : Nat
  total_tokens : Nat
  duration_seconds : Nat
deriving Repr, DecidableEq

/-- Embedding of the `CreditTracker` class state (firecrawl_pipeline.py,
lines 101-141). -/
structure CreditTracker where
  operations : List Operation
  total_credits : Nat
  total_input_tokens : Nat
  total_output_tokens : Nat
deriving Repr, DecidableEq

/-- The `CreditTracker.__init__` state. -/
def CreditTracker.new : CreditTracker :=
  { operations := [], total_credits := 0
    total_input_tokens := 0, total_output_tokens := 0 }

/-- Embedding of `CreditTracker.add_operation`: append the operation dict
and bump the three running totals. -/
def CreditTracker.add_operation (t : CreditTracker) (operation_name : String)
    (credits_used : Nat) (duration_seconds : Nat)
    (input_tokens output_tokens : Nat) : CreditTracker :=
  { operations := t.operations ++
      [{ operation := operation_name, credits := credits_used
         input_tokens := input_tokens, output_tokens := output_tokens
         total_tokens := input_tokens + output_tokens
         duration_seconds := duration_seconds }]
    total_credits := t.total_credits + credits_used
    total_input_tokens := t.total_input_tokens + input_tokens
    total_output_tokens := t.total_output_tokens + output_tokens }

/-- Modelled from the spec: `merge(other)` of the UsageLedger (spec §4.1,
"appends another ledger's records in order ... merge = concatenate
records, sum totals") is not implemented anywhere under src/ — the
`CreditTracker` class has no merge method — so it is modelled here from
the spec's words. -/
def CreditTracker.merge (t other : CreditTracker) : CreditTracker :=
  { operations := t.operations ++ other.operations
    total_credits := t.total_credits + other.total_credits
    total_input_tokens := t.total_input_tokens + other.total_input_tokens
    total_output_tokens := t.total_output_tokens + other.total_output_tokens }

/-- Arguments of one `add_operation` call. -/
structure OpSpec where
  name : String
  credits : Nat
  duration : Nat
  input_tokens : Nat
  output_tokens : Nat
deriving Repr, DecidableEq

/-- Run a finite sequence of `add_operation` calls against a tracker. -/
def runOps (t : CreditTracker) (ops : List OpSpec) : CreditTracker :=
  ops.foldl
    (fun acc o => acc.add_operation o.name o.credits o.duration
      o.input_tokens o.output_tokens) t

/-- The derived-total invariant the spec states for UsageLedger: each
running total equals the sum of the corresponding field over the recorded
operations. -/
def trackerInvariant (t : CreditTracker) : Prop :=
  t.total_credits = (t.operations.map (·.credits)).sum ∧
  t.total_input_tokens = (t.operations.map (·.input_tokens)).sum ∧
  t.total_output_tokens = (t.operations.map (·.output_tokens)).sum

/-- A generated user segment, restricted to the fields the pipeline logic
reads (`segment_name`, `priority_level`, `description`); the remaining
schema fields are prompt payload never branched on. -/
structure Segment where
  segment_name : String
  priority_level : String
  description : String
deriving Repr, DecidableEq

/-- Behaviour of one `app.agent(...)` call: it returns data together with
an optional `credits_used` attribute, or raises. -/
inductive AgentOutcome (α : Type) where
  | ok (data : α) (credits_used : Option Nat)
  | raises (msg : String)
deriving Repr, DecidableEq

/-- One entry of `market_sizing_results` in
`firecrawl_pipeline.run_complete_pipeline`: on success the market data
(abstracted to its payload) with no error field, on exception a `None`
market_sizing with the error string. -/
structure SizingEntry where
  segment : Segment
  market_sizing : Option String
  error : Option String
deriving Repr, DecidableEq

/-- The priority filter of the pipeline:
`s.get('priority_level') in ['primary', 'secondary']`. -/
def isTopPriority (s : Segment) : Bool :=
  s.priority_level == "primary" || s.priority_level == "secondary"

/-- One iteration of the sizing loop of
`firecrawl_pipeline.run_complete_pipeline` (lines 490-544): a successful
`app.agent` call appends the market data, an exception appends an error
entry for that same segment. -/
def sizeSegment (sizing : Segment → AgentOutcome String) (s : Segment) :
    SizingEntry :=
  match sizing s with
  | .ok d _ => { segment := s, market_sizing := some d, error := none }
  | .raises e => { segment := s, market_sizing := none, error := some e }

/-- The persisted output of `firecrawl_pipeline.run_complete_pipeline`
(the fields of `output_data` that the claims concern). -/
structure PipelineOutput where
  segments_generated : List Segment
  market_sizing_results : List SizingEntry
deriving Repr, DecidableEq

/-- Embedding of `firecrawl_pipeline.run_complete_pipeline` (lines
361-609).  `genOutcome` models the segment-generation `app.agent` call and
`sizing` the per-segment sizing calls.  The function returns the persisted
output (`none` when generation raised, mirroring `return None`) together
with the list of segments the sizing stage was invoked on (empty when the
sizing stage is never reached). -/
def run_complete_pipeline (genOutcome : AgentOutcome (List Segment))
    (size_all_segments : Bool) (sizing : Segment → AgentOutcome String) :
    Option PipelineOutput × List Segment :=
  match genOutcome with
  | .raises _ => (none, [])
  | .ok segments _ =>
      let segments_to_process :=
        if size_all_segments then segments else segments.filter isTopPriority
      (some { segments_generated := segments
              market_sizing_results := segments_to_process.map (sizeSegment sizing) },
       segments_to_process)

end FirecrawlPipeline

namespace FirecrawlAgent

open FirecrawlPipeline (Segment)

/-- The hard-coded placeholder list that
`langchain_firecrawl_agent.run_complete_pipeline` builds in place of the
parsed generation result (lines 1179-1183, under the source comment
"TODO: Parse segment_result to extract segments list / For now, create
mock segments for testing"). -/
def mock_segments : List Segment :=
  [{ segment_name := "Segment 1", priority_level := "primary"
     description := "Primary segment" },
   { segment_name := "Segment 2", priority_level := "secondary"
     description := "Secondary 1" },
   { segment_name := "Segment 3", priority_level := "secondary"
     description := "Secondary 2" }]

/-- The target selection of `size_market_for_segments` (line 788):
`[s for s in segments if s.get('priority_level') in ['primary',
'secondary']][:3]`. -/
def top_segments (segments : List Segment) : List Segment :=
  (segments.filter FirecrawlPipeline.isTopPriority).take 3

/-- The list of segments the langchain pipeline's phase-2 sizing stage is
invoked on, as a function of the generated segments: the generation result
is ignored and the mock list is passed to `size_market_for_segments`
(lines 1177-1186). -/
def lcSizingTargets (_generatedSegments : List Segment) : List Segment :=
  top_segments mock_segments

/-- The per-worker result dict of `process_segment`, restricted to the
identity and accounting fields the claims concern. -/
structure WorkerResult where
  segment_name : String
  credits_used : Nat
deriving Repr, DecidableEq

/-- The result-collection loop of `size_market_for_segments` (lines
1093-1099): iterating the completed futures in completion order, a worker
that returned normally has its result appended, and a worker that raised
is only logged — nothing is appended for it. -/
def collect_results (outcomes : List (Except String WorkerResult)) :
    List WorkerResult :=
  match outcomes with
  | [] => []
  | .ok r :: rest => r :: collect_results rest
  | .error _ :: rest => collect_results rest

/-- A provider behaviour returning one web result and reporting 2 credits,
the normal billed case. -/
def searchRespOneResult : SearchResponse :=
  .results [{ url := "https://example.com/a", title := "A", description := "d" }]
    (some 2)

/-- A 10-entry `_recent_queries` window in which the query "X" already
occurs twice, once at the oldest slot and once at the newest. -/
def boundaryWindow : List String :=
  ["X", "y1", "y2", "y3", "y4", "y5", "y6", "y7", "y8", "X"]

/-- One search call of the query "X" with a billed one-result response. -/
def identicalCall : String × Nat × SearchResponse := ("X", 10, searchRespOneResult)

/-- The same query issued five times in one run, starting from the fresh
window a new run begins with. -/
def fiveIdenticalCalls : List (String × Nat × SearchResponse) :=
  List.replicate 5 identicalCall

/-- Three issuances of the same query against the shared window: the first
two by one thread-pool worker, the third the very first call of a sibling
worker. -/
def tripleIdenticalCalls : List (String × Nat × SearchResponse) :=
  List.replicate 3 identicalCall

/-- A concrete generation result with exactly 1 primary and 2 secondary
segments (plus one alternative), used to exercise the pipelines. -/
def genSegmentsDemo : List Segment :=
  [{ segment_name := "Busy Suburban Parents", priority_level := "primary"
     description := "Parents squeezing workouts into calendar gaps" },
   { segment_name := "Independent Trainers", priority_level := "secondary"
     description := "Trainers filling off-peak slots" },
   { segment_name := "Micro Gym Owners", priority_level := "secondary"
     description := "Owners monetizing idle capacity" },
   { segment_name := "Corporate Wellness Buyers", priority_level := "alternative"
     description := "HR teams buying perks" }]

/-- A sizing stage that succeeds on every segment, echoing its name. -/
def demoSizing (s : Segment) : FirecrawlPipeline.AgentOutcome String :=
  .ok ("sizing for " ++ s.segment_name) (some 3)

end FirecrawlAgent

namespace FirecrawlAgent

/-- Helper: whichever branch a search call takes, the updated window is
the pushed one (the source appends to `_recent_queries` before anything
else). -/
theorem firecrawl_search_recent (recent : List String) (q : String)
    (lim : Nat) (resp : SearchResponse) :
    (firecrawl_search recent q lim resp).recent = pushQuery recent q := by
  simp only [firecrawl_search]
  split <;> rfl

/-- C2: for every input and every provider behaviour — error, empty
result, missing data, malformed response, raised exception — both
`firecrawl_search` and `firecrawl_scrape` return an envelope (they are
total over the full behaviour space, modelling "never raise") and that
envelope always has `success == true`. -/
theorem tool_adapters_always_return_success (recent : List String)
    (q url : String) (lim : Nat) (sresp : SearchResponse)
    (presp : ScrapeResponse) :
    (firecrawl_search recent q lim sresp).envelope.success = true ∧
    (firecrawl_scrape url presp).success = true := by
  constructor
  · simp only [firecrawl_search]
    split
    · rfl
    · cases sresp with
      | raises msg => rfl
      | failure errorMsg => rfl
      | noData => rfl
      | results web creditsUsed =>
        simp only
        split <;> rfl
  · cases presp <;> rfl

/-- C8: on a successful scrape, content longer than 5000 characters is
returned as exactly its first 5000 characters followed by the truncation
marker, and content of at most 5000 characters is returned verbatim;
`full_length` reports the untruncated length. -/
theorem scrape_truncates_at_5000_with_marker (url : String)
    (md : List Char) (cu : Option Nat) :
    (firecrawl_scrape url (.success md cu)).content =
      (if md.length > 5000 then md.take 5000 ++ truncationMarker else md) ∧
    (firecrawl_scrape url (.success md cu)).full_length = md.length ∧
    (md.length ≤ 5000 →
      (firecrawl_scrape url (.success md cu)).content = md) := by
  refine ⟨?_, rfl, ?_⟩
  · simp only [firecrawl_scrape]
    split
    · rfl
    · next h => exact List.take_of_length_le (Nat.le_of_not_lt h)
  · intro h
    simp only [firecrawl_scrape]
    rw [if_neg (Nat.not_lt.mpr h)]
    exact List.take_of_length_le h

/-- Witness for C8 at a concrete short content. -/
theorem scrape_truncates_at_5000_with_marker_witness :
    ("short page".toList.length ≤ 5000) ∧
    (firecrawl_scrape "https://example.com/a"
        (.success "short page".toList none)).content = "short page".toList :=
  ⟨by decide,
   (scrape_truncates_at_5000_with_marker "https://example.com/a"
       "short page".toList none).2.2 (by decide)⟩

/-- C10: every successful scrape reports `credits_used = 1`, whatever
credit count the provider itself reported; hence summing the scrape
envelopes of any sequence of successful scrape calls counts the calls,
not the provider-billed credits. -/
theorem scrape_success_credits_constant_one (url : String) (md : List Char)
    (cu : Option Nat) (calls : List (String × List Char × Option Nat)) :
    (firecrawl_scrape url (.success md cu)).credits_used = 1 ∧
    (calls.map
        (fun c => (firecrawl_scrape c.1 (.success c.2.1 c.2.2)).credits_used)).sum
      = calls.length := by
  refine ⟨rfl, ?_⟩
  induction calls with
  | nil => rfl
  | cons c rest ih =>
    have hc : (firecrawl_scrape c.1 (.success c.2.1 c.2.2)).credits_used = 1 := rfl
    rw [List.map_cons, List.sum_cons, hc, ih, List.length_cons, Nat.add_comm]

end FirecrawlAgent

namespace FirecrawlPipeline

/-- C9: when the segment-generation call raises, the pipeline returns the
null result, the sizing stage is invoked on no segment at all, and there
are zero sizing entries. -/
theorem generation_failure_halts_pipeline (msg : String)
    (size_all_segments : Bool) (sizing : Segment → AgentOutcome String) :
    (run_complete_pipeline (.raises msg) size_all_segments sizing).1 = none ∧
    (run_complete_pipeline (.raises msg) size_all_segments sizing).2 = [] :=
  ⟨rfl, rfl⟩

end FirecrawlPipeline

namespace FirecrawlPipeline

/-- Helper: `add_operation` preserves the derived-total invariant. -/
theorem trackerInvariant_add_operation (t : CreditTracker) (n : String)
    (c d i o : Nat) (h : trackerInvariant t) :
    trackerInvariant (t.add_operation n c d i o) := by
  obtain ⟨h1, h2, h3⟩ := h
  refine ⟨?_, ?_, ?_⟩ <;>
    simp [CreditTracker.add_operation, h1, h2, h3]

/-- Helper: any sequence of `add_operation` calls preserves the invariant. -/
theorem trackerInvariant_runOps (ops : List OpSpec) :
    ∀ t : CreditTracker, trackerInvariant t → trackerInvariant (runOps t ops) := by
  induction ops with
  | nil => intro t h; exact h
  | cons op rest ih =>
    intro t h
    exact ih _ (trackerInvariant_add_operation t op.name op.credits
      op.duration op.input_tokens op.output_tokens h)

/-- Helper: the fresh tracker satisfies the invariant. -/
theorem trackerInvariant_new : trackerInvariant CreditTracker.new :=
  ⟨rfl, rfl, rfl⟩

/-- Helper: merging two invariant-satisfying trackers preserves the
invariant. -/
theorem trackerInvariant_merge (t u : CreditTracker)
    (ht : trackerInvariant t) (hu : trackerInvariant u) :
    trackerInvariant (t.merge u) := by
  obtain ⟨t1, t2, t3⟩ := ht
  obtain ⟨u1, u2, u3⟩ := hu
  refine ⟨?_, ?_, ?_⟩ <;>
    simp [CreditTracker.merge, t1, t2, t3, u1, u2, u3]

/-- C7: after any finite sequence of `add_operation` calls on a fresh
tracker, `total_credits` equals the sum of the recorded operations'
credits, and likewise for input and output tokens; the same equalities
hold after merging two such ledgers (merge modelled from the spec, since
src/ implements no merge). -/
theorem creditTracker_totals_are_record_sums (ops ops1 ops2 : List OpSpec) :
    trackerInvariant (runOps CreditTracker.new ops) ∧
    trackerInvariant
      ((runOps CreditTracker.new ops1).merge (runOps CreditTracker.new ops2)) :=
  ⟨trackerInvariant_runOps ops CreditTracker.new trackerInvariant_new,
   trackerInvariant_merge _ _
     (trackerInvariant_runOps ops1 CreditTracker.new trackerInvariant_new)
     (trackerInvariant_runOps ops2 CreditTracker.new trackerInvariant_new)⟩

end FirecrawlPipeline

namespace FirecrawlAgent

/-- C5 counterexample: three workers are submitted; the "Busy Suburban
Parents" and "Micro Gym Owners" workers complete and the "Independent
Trainers" worker raises.  The collected output has only the two
successful entries and carries no entry at all — in particular no error
entry — for the failed segment, contradicting the claim that an error
entry is recorded in that segment's result slot. -/
theorem orchestrator_drops_failed_worker_counterexample :
    collect_results
        [.ok { segment_name := "Busy Suburban Parents", credits_used := 6 },
         .error "boom",
         .ok { segment_name := "Micro Gym Owners", credits_used := 4 }] =
      [{ segment_name := "Busy Suburban Parents", credits_used := 6 },
       { segment_name := "Micro Gym Owners", credits_used := 4 }] ∧
    (collect_results
        [.ok { segment_name := "Busy Suburban Parents", credits_used := 6 },
         .error "boom",
         .ok { segment_name := "Micro Gym Owners", credits_used := 4 }]).length = 2 ∧
    ((collect_results
        [.ok { segment_name := "Busy Suburban Parents", credits_used := 6 },
         .error "boom",
         .ok { segment_name := "Micro Gym Owners", credits_used := 4 }]).map
        (·.segment_name)).contains "Independent Trainers" = false := by
  decide

/-- C5 amended: a raising worker does not cancel its siblings and their
results are still collected complete, keyed by their own segment name,
whatever the completion order; but the failed worker contributes no entry
(neither a result nor an error marker) to the collected output. -/
theorem orchestrator_keeps_sibling_results (a c : WorkerResult) (err : String) :
    collect_results [.ok a, .error err, .ok c] = [a, c] ∧
    collect_results [.ok a, .ok c, .error err] = [a, c] ∧
    collect_results [.error err, .ok a, .ok c] = [a, c] :=
  ⟨rfl, rfl, rfl⟩

/-- C6: the spec is right about the intended flow — on a generation result
with exactly 1 primary and 2 secondary segments the `firecrawl_pipeline`
driver invokes sizing on exactly those 3 and persists all segments with 3
sizing entries — but the langchain driver contradicts its own source
comment ("TODO: Parse segment_result ... For now, create mock segments
for testing"): it ignores the generated segments and sizes the hard-coded
mock list instead. -/
theorem langchain_pipeline_sizes_mock_segments :
    (top_segments genSegmentsDemo).map (·.segment_name) =
      ["Busy Suburban Parents", "Independent Trainers", "Micro Gym Owners"] ∧
    (lcSizingTargets genSegmentsDemo).map (·.segment_name) =
      ["Segment 1", "Segment 2", "Segment 3"] ∧
    lcSizingTargets genSegmentsDemo ≠ top_segments genSegmentsDemo ∧
    ((FirecrawlPipeline.run_complete_pipeline
        (.ok genSegmentsDemo (some 5)) false demoSizing).2.map (·.segment_name) =
      ["Busy Suburban Parents", "Independent Trainers", "Micro Gym Owners"]) ∧
    ((FirecrawlPipeline.run_complete_pipeline
        (.ok genSegmentsDemo (some 5)) false demoSizing).1.map
        (fun o => (o.segments_generated, o.market_sizing_results.length)) =
      some (genSegmentsDemo, 3)) := by
  refine ⟨rfl, rfl, by decide, rfl, rfl⟩

end FirecrawlAgent

namespace FirecrawlAgent

/-- C1 counterexample: in a full 10-entry window the query "X" has already
occurred twice among the last 10 recorded queries — but one occurrence
sits in the oldest slot, which the append-then-pop update evicts before
counting, so the new call does NOT short-circuit: the provider is invoked
and the full 2 credits are charged. -/
theorem loopGuard_boundary_counterexample :
    boundaryWindow.count "X" = 2 ∧
    boundaryWindow.length = 10 ∧
    (firecrawl_search boundaryWindow "X" 10 searchRespOneResult).providerInvoked
      = true ∧
    (firecrawl_search boundaryWindow "X" 10
        searchRespOneResult).envelope.credits_used = 2 := by
  decide

/-- C1 amended: if the query has already occurred at least twice among the
last 9 recorded queries (so the appended call makes its count in the
10-entry sliding window reach 3), the call short-circuits with a
zero-credit, noted synthetic envelope and the provider is not invoked;
and a query issued 5 times in one run (fresh window) reaches the provider
on calls 1-2 only, so the total credits charged are those of calls 1-2. -/
theorem loopGuard_short_circuits :
    (∀ (recent : List String) (q : String) (lim : Nat) (resp : SearchResponse),
        recent.length ≤ 10 →
        2 ≤ (recent.drop (recent.length - 9)).count q →
        ((firecrawl_search recent q lim resp).providerInvoked = false ∧
         (firecrawl_search recent q lim resp).envelope.credits_used = 0 ∧
         (firecrawl_search recent q lim resp).envelope.note ≠ none)) ∧
    ((runSearches [] fiveIdenticalCalls).2.map (·.providerInvoked) =
        [true, true, false, false, false]) ∧
    ((runSearches [] fiveIdenticalCalls).2.map (·.envelope.credits_used) =
        [2, 2, 0, 0, 0]) ∧
    ((runSearches [] fiveIdenticalCalls).2.map (·.envelope.credits_used)).sum
      = 2 + 2 := by
  refine ⟨?_, by decide, by decide, by decide⟩
  intro recent q lim resp hlen hcount
  have hone : ([q] : List String).count q = 1 := by
    simp [List.count_singleton]
  have hkey : maxIdenticalQueries ≤ (pushQuery recent q).count q := by
    unfold pushQuery
    by_cases hfull : (recent ++ [q]).length > 10
    · have h10 : recent.length = 10 := by
        rw [List.length_append] at hfull
        simp only [List.length_cons, List.length_nil] at hfull
        omega
      rw [if_pos hfull,
          List.drop_append_of_le_length (by omega),
          List.count_append]
      have h1 : recent.length - 9 = 1 := by omega
      rw [h1] at hcount
      rw [hone]
      show maxIdenticalQueries ≤ _
      unfold maxIdenticalQueries
      omega
    · rw [if_neg hfull, List.count_append]
      have h0 : recent.length - 9 = 0 := by
        rw [List.length_append] at hfull
        simp only [List.length_cons, List.length_nil] at hfull
        omega
      rw [h0, List.drop_zero] at hcount
      rw [hone]
      unfold maxIdenticalQueries
      omega
  refine ⟨?_, ?_, ?_⟩ <;> simp [firecrawl_search, hkey]

/-- Witness for C1 amended: with the window already holding "X" twice, a
third issuance short-circuits without invoking the provider. -/
theorem loopGuard_short_circuits_witness :
    ((["X", "X"] : List String).length ≤ 10 ∧
      2 ≤ ((["X", "X"] : List String).drop
            ((["X", "X"] : List String).length - 9)).count "X") ∧
    (firecrawl_search ["X", "X"] "X" 7 .noData).providerInvoked = false :=
  ⟨⟨by decide, by decide⟩,
   (loopGuard_short_circuits.1 ["X", "X"] "X" 7 .noData
       (by decide) (by decide)).1⟩

end FirecrawlAgent

namespace FirecrawlAgent

/-- C3 counterexample: a search whose provider returns an empty result set
but reports 2 billed credits is a failure mode (empty result), yet the
returned envelope carries `credits_used = 2`, not 0 — the empty-result
branch forwards the provider's `creditsUsed` instead of zeroing it. -/
theorem search_empty_result_keeps_provider_credits :
    (firecrawl_search [] "gym trainer market size" 10
        (.results [] (some 2))).envelope.credits_used = 2 ∧
    (firecrawl_search [] "gym trainer market size" 10
        (.results [] (some 2))).envelope.results = [] := by
  decide

/-- C3 amended: when the provider call fails in any way — raised
exception, provider-reported error, missing data, empty result set for
search, failed or raising scrape — the envelope carries an explanatory
note and an empty payload; `credits_used` is 0 in every such mode except
the search empty-result-set branch, which forwards the provider-reported
`creditsUsed` (defaulting to 0 when absent). -/
theorem tool_failures_degrade_to_noted_empty (recent : List String)
    (q url msg : String) (lim : Nat) (err : Option String) (cu : Option Nat)
    (hnl : (pushQuery recent q).count q < maxIdenticalQueries) :
    ((firecrawl_search recent q lim (.raises msg)).envelope.credits_used = 0 ∧
     (firecrawl_search recent q lim (.raises msg)).envelope.note ≠ none ∧
     (firecrawl_search recent q lim (.raises msg)).envelope.results = []) ∧
    ((firecrawl_search recent q lim (.failure err)).envelope.credits_used = 0 ∧
     (firecrawl_search recent q lim (.failure err)).envelope.note ≠ none ∧
     (firecrawl_search recent q lim (.failure err)).envelope.results = []) ∧
    ((firecrawl_search recent q lim .noData).envelope.credits_used = 0 ∧
     (firecrawl_search recent q lim .noData).envelope.note ≠ none ∧
     (firecrawl_search recent q lim .noData).envelope.results = []) ∧
    ((firecrawl_search recent q lim (.results [] cu)).envelope.credits_used
        = cu.getD 0 ∧
     (firecrawl_search recent q lim (.results [] cu)).envelope.note ≠ none ∧
     (firecrawl_search recent q lim (.results [] cu)).envelope.results = []) ∧
    ((firecrawl_scrape url (.failure err)).credits_used = 0 ∧
     (firecrawl_scrape url (.failure err)).note ≠ none ∧
     (firecrawl_scrape url (.failure err)).content = []) ∧
    ((firecrawl_scrape url (.raises msg)).credits_used = 0 ∧
     (firecrawl_scrape url (.raises msg)).note ≠ none ∧
     (firecrawl_scrape url (.raises msg)).content = []) := by
  have hlt : ¬ maxIdenticalQueries ≤ (pushQuery recent q).count q :=
    Nat.not_le.mpr hnl
  refine ⟨⟨?_, ?_, ?_⟩, ⟨?_, ?_, ?_⟩, ⟨?_, ?_, ?_⟩, ⟨?_, ?_, ?_⟩,
    ⟨rfl, by simp [firecrawl_scrape], rfl⟩,
    ⟨rfl, by simp [firecrawl_scrape], rfl⟩⟩ <;>
    simp [firecrawl_search, hlt]

/-- Witness for C3 amended at a fresh window. -/
theorem tool_failures_degrade_to_noted_empty_witness :
    ((pushQuery [] "pricing data").count "pricing data" < maxIdenticalQueries) ∧
    (firecrawl_search [] "pricing data" 10
        (.raises "network down")).envelope.credits_used = 0 :=
  ⟨by decide,
   (tool_failures_degrade_to_noted_empty [] "pricing data"
       "https://example.com/a" "network down" 10 none none (by decide)).1.1⟩

/-- C4 counterexample: with the loop-detection window held in the shared
module global `_recent_queries`, a worker's very first issuance of a query
short-circuits after a sibling worker already issued it twice — even
though, from a fresh state, that identical call would have invoked the
provider.  One worker's searches therefore do influence another worker's
loop detection. -/
theorem shared_loop_state_counterexample :
    (firecrawl_search [] "X" 10 searchRespOneResult).providerInvoked = true ∧
    ((runSearches [] tripleIdenticalCalls).2.map (·.providerInvoked) =
      [true, true, false]) ∧
    ((runSearches [] tripleIdenticalCalls).2.map (·.envelope.credits_used) =
      [2, 2, 0]) := by
  decide

/-- C4 amended: the loop-detection window is a module-level global shared
by every thread-pool worker; after any two issuances of a query through
the shared window, a third issuance — regardless of which worker makes it
and of every provider behaviour — short-circuits with zero credits and a
note.  Per-worker credit/token tallies, by contrast, are worker-local and
only aggregated after completion. -/
theorem shared_loop_state_cross_worker (q : String) (l1 l2 l3 : Nat)
    (r1 r2 r3 : SearchResponse) :
    ((firecrawl_search
        (firecrawl_search
          (firecrawl_search [] q l1 r1).recent q l2 r2).recent
        q l3 r3).providerInvoked = false) ∧
    ((firecrawl_search
        (firecrawl_search
          (firecrawl_search [] q l1 r1).recent q l2 r2).recent
        q l3 r3).envelope.credits_used = 0) ∧
    ((firecrawl_search
        (firecrawl_search
          (firecrawl_search [] q l1 r1).recent q l2 r2).recent
        q l3 r3).envelope.note ≠ none) := by
  rw [firecrawl_search_recent, firecrawl_search_recent]
  have h2 : pushQuery (pushQuery ([] : List String) q) q = [q, q] := rfl
  rw [h2]
  have hkey : maxIdenticalQueries ≤ (pushQuery [q, q] q).count q := by
    have h3 : pushQuery ([q, q] : List String) q = [q, q, q] := rfl
    rw [h3]
    simp [List.count_cons_self, maxIdenticalQueries]
  refine ⟨?_, ?_, ?_⟩ <;> simp [firecrawl_search, hkey]

end FirecrawlAgent
